import Mathlib

/-!
Verification of the Immer Miau player-roster forms.

Shallow embedding of the PIN-guarded upsert/update logic of
src/public_form.py, the admin upsert of src/_dashboard.py, and the admin
PIN reset of src/dashboard.py.  The external table store (Supabase /
PostgREST over Postgres) is modelled as a list of rows; its error
responses carry both a structured kind and the message string that the
Python code inspects.  Clock readings are passed explicitly: each call
of now_iso consumes one instant (a natural number at clock resolution).
-/

namespace ImmerMiau

/-- Canonical DB values for seat color (public_form.py line 29). -/
def SEAT_OPTIONS : List String := ["White", "Blue", "Pink"]

/-- Model of the character predicate behind Python str.isdigit, on the
Unicode ranges exercised in this development: the ASCII digits together
with representative non-ASCII characters Python classifies as digits
(Arabic-Indic, Extended Arabic-Indic, Devanagari and Fullwidth decimal
digits, and the superscript digits). -/
def pyIsDigitChar (c : Char) : Bool :=
  (0x30 ≤ c.toNat && c.toNat ≤ 0x39) ||
  (0x660 ≤ c.toNat && c.toNat ≤ 0x669) ||
  (0x6F0 ≤ c.toNat && c.toNat ≤ 0x6F9) ||
  (0x966 ≤ c.toNat && c.toNat ≤ 0x96F) ||
  (0xFF10 ≤ c.toNat && c.toNat ≤ 0xFF19) ||
  (c.toNat = 0xB2 || c.toNat = 0xB3 || c.toNat = 0xB9) ||
  (0x2070 ≤ c.toNat && c.toNat ≤ 0x2079)

/-- Model of Python str.isdigit: true on a non-empty string all of whose
characters are Python digits. -/
def pyIsDigit (s : String) : Bool :=
  decide (s.toList ≠ []) && s.toList.all pyIsDigitChar

/-- valid_pin (public_form.py lines 34-35):
bool(pin) and pin.isdigit() and 4 <= len(pin) <= 6. -/
def valid_pin (pin : String) : Bool :=
  decide (pin.toList ≠ []) && pyIsDigit pin &&
    (decide (4 ≤ pin.length) && decide (pin.length ≤ 6))

/-- Modelled from the spec words for claim C2 only: a candidate matches
the regular expression caret [0-9]\x7b4,6\x7d dollar, i.e. it consists only of
the ASCII decimal digits 0-9 (codepoints 0x30-0x39) and has length
between 4 and 6 inclusive. -/
def matchesPinRegex (s : String) : Bool :=
  s.toList.all (fun c => decide (0x30 ≤ c.toNat ∧ c.toNat ≤ 0x39)) &&
    (decide (4 ≤ s.length) && decide (s.length ≤ 6))

/-- now_iso (public_form.py lines 37-38) reads the UTC clock; modelled as
returning the clock instant supplied for that call site. -/
def now_iso (clock : Nat) : Nat := clock

/-- Whitespace characters removed by Python str.strip (the ASCII ones;
the non-ASCII whitespace Python also strips is not exercised here). -/
def isSpaceChar (c : Char) : Bool :=
  c = ' ' || c = '\t' || c = '\n' || c = '\r' || c = '\x0b' || c = '\x0c'

/-- Drop the leading whitespace of a character list. -/
def dropLeadingSpaces : List Char → List Char
  | [] => []
  | c :: cs => if isSpaceChar c then dropLeadingSpaces cs else c :: cs

/-- Model of Python str.strip: remove leading and trailing whitespace. -/
def pyStrip (s : String) : String :=
  String.mk ((dropLeadingSpaces ((dropLeadingSpaces s.toList).reverse)).reverse)

/-- One row of the players table.  Timestamps are clock instants;
edit_secret is the value of whichever secret column the schema has. -/
structure Row where
  player_name : String
  current_alliance : Option String
  total_hero_power : Option Int
  combat_power_1st_squad : Option Int
  expected_transfer_seat_color : Option String
  edit_secret : Option String
  created_at : Option Nat
  updated_at : Option Nat
  submitted_ip : Option String
deriving Repr, DecidableEq

/-- A write payload (a Python dict).  An outer some means the key is
present; the inner option is the value, which may itself be null. -/
structure Payload where
  player_name : Option String
  current_alliance : Option (Option String)
  total_hero_power : Option (Option Int)
  combat_power_1st_squad : Option (Option Int)
  expected_transfer_seat_color : Option (Option String)
  created_at : Option (Option Nat)
  updated_at : Option (Option Nat)
deriving Repr, DecidableEq

/-- Column overwrite: a key present in the payload replaces the stored
value (possibly with null); an absent key leaves the stored value. -/
def ov {α : Type} (old : Option α) : Option (Option α) → Option α
  | none => old
  | some v => v

/-- Effect of an update payload on one row: exactly the keys present in
the payload are overwritten. -/
def applyPayload (p : Payload) (r : Row) : Row :=
  { player_name := p.player_name.getD r.player_name
    current_alliance := ov r.current_alliance p.current_alliance
    total_hero_power := ov r.total_hero_power p.total_hero_power
    combat_power_1st_squad := ov r.combat_power_1st_squad p.combat_power_1st_squad
    expected_transfer_seat_color := ov r.expected_transfer_seat_color p.expected_transfer_seat_color
    edit_secret := r.edit_secret
    created_at := ov r.created_at p.created_at
    updated_at := ov r.updated_at p.updated_at
    submitted_ip := r.submitted_ip }

/-- A freshly inserted row: keys absent from the payload become null. -/
def rowOfPayload (p : Payload) (secret : Option String) : Row :=
  { player_name := p.player_name.getD ""
    current_alliance := (p.current_alliance).getD none
    total_hero_power := (p.total_hero_power).getD none
    combat_power_1st_squad := (p.combat_power_1st_squad).getD none
    expected_transfer_seat_color := (p.expected_transfer_seat_color).getD none
    edit_secret := secret
    created_at := (p.created_at).getD none
    updated_at := (p.updated_at).getD none
    submitted_ip := none }

/-- Structured reason of a store failure (spec section 6: the store
returns a machine-readable reason alongside the message). -/
inductive ErrorKind
  | undefinedColumn (col : String)
  | uniqueViolation
  | permissionDenied
  | rlsViolation
  | networkError
deriving Repr, DecidableEq

/-- A failure raised by the store: a structured kind plus the message
string, which is all that the Python code inspects (str(e)). -/
structure StoreError where
  kind : ErrorKind
  msg : String
deriving Repr, DecidableEq

/-- Which secret column the backing schema has (exactly one exists at a
time, per the spec data model). -/
inductive SecretCol
  | editPin
  | editCode
deriving Repr, DecidableEq

/-- Name of the secret column present in the schema. -/
def secretColName : SecretCol → String
  | SecretCol.editPin => "edit_pin"
  | SecretCol.editCode => "edit_code"

/-- The undefined-column failure emitted when a statement references a
secret column the schema does not have (PostgREST message shape). -/
def undefinedColumnError (col : String) : StoreError :=
  { kind := ErrorKind.undefinedColumn col
    msg := "column players." ++ col ++ " does not exist" }

/-- The unique-violation failure emitted on a duplicate player_name. -/
def duplicateKeyError : StoreError :=
  { kind := ErrorKind.uniqueViolation
    msg := "duplicate key value violates unique constraint \"players_player_name_key\"" }

/-- Store update filtered by player_name and the secret column named col:
undefined-column failure when col is not the schema column, otherwise
every row matching both filters is overwritten by the payload.  A filter
matching zero rows is NOT an error: the store answers success with zero
rows affected. -/
def updateWhereNameAndSecret (schema : SecretCol) (p : Payload) (name : String)
    (col : String) (pin : String) (store : List Row) : Except StoreError (List Row) :=
  if col = secretColName schema then
    Except.ok (store.map (fun r =>
      if r.player_name = name ∧ r.edit_secret = some pin then applyPayload p r else r))
  else
    Except.error (undefinedColumnError col)

/-- Store insert carrying the secret under the column named col:
undefined-column failure when col is not the schema column, duplicate-key
failure when a row with the payload player_name exists, otherwise the
new row is appended. -/
def insertNew (schema : SecretCol) (p : Payload) (col : String) (pin : String)
    (store : List Row) : Except StoreError (List Row) :=
  if col = secretColName schema then
    if store.any (fun r => decide (r.player_name = p.player_name.getD "")) then
      Except.error duplicateKeyError
    else
      Except.ok (store ++ [rowOfPayload p (some pin)])
  else
    Except.error (undefinedColumnError col)

/-- Helper for substring search: pat starts the list. -/
def leadsWith : List Char → List Char → Bool
  | [], _ => true
  | _ :: _, [] => false
  | p :: ps, c :: cs => p == c && leadsWith ps cs

/-- Helper for substring search: pat occurs somewhere in the list. -/
def occursIn (pat : List Char) : List Char → Bool
  | [] => leadsWith pat []
  | c :: cs => leadsWith pat (c :: cs) || occursIn pat cs

/-- Model of the Python substring test (pat in msg). -/
def strContains (msg pat : String) : Bool :=
  occursIn pat.toList msg.toList

/-- The fallback condition of public_form.py lines 49 and 65:
("edit_pin" in msg and "does not exist" in msg) or ("column edit_pin" in msg). -/
def fallbackTriggered (msg : String) : Bool :=
  (strContains msg "edit_pin" && strContains msg "does not exist") ||
    strContains msg "column edit_pin"

/-- The shared try/except flow of try_update_with_pin and
try_insert_with_pin: run the first attempt; on failure, run the second
attempt iff the message passes fallbackTriggered, else re-raise. -/
def retryOnFallback {α : Type} (firstTry : Except StoreError α)
    (secondTry : Unit → Except StoreError α) : Except StoreError α :=
  match firstTry with
  | Except.ok a => Except.ok a
  | Except.error e => if fallbackTriggered e.msg then secondTry () else Except.error e

/-- try_update_with_pin (public_form.py lines 40-52): the store update
filtered on edit_pin, retried filtered on edit_code when the failure
message passes the fallback test.  updateOp col is the store update
using secret column col. -/
def try_update_with_pin (updateOp : String → Except StoreError (List Row)) :
    Except StoreError (List Row) :=
  retryOnFallback (updateOp "edit_pin") (fun _ => updateOp "edit_code")

/-- try_insert_with_pin (public_form.py lines 54-70): the store insert
with the secret under edit_pin, retried under edit_code when the failure
message passes the fallback test. -/
def try_insert_with_pin (insertOp : String → Except StoreError (List Row)) :
    Except StoreError (List Row) :=
  retryOnFallback (insertOp "edit_pin") (fun _ => insertOp "edit_code")

/-- State of the public submission form (public_form.py lines 145-174).
The two power inputs are number_input with min_value=0 and step=1, so
their values are non-negative integers, 0 by default. -/
structure FormState where
  player_name : String
  alliance : String
  total_power : Nat
  combat_power : Nat
  seat_color : String
  update_mode : Bool
  pin_update : String
  pin_create : String
deriving Repr, DecidableEq

/-- What the submit handler reports to the user. -/
inductive Outcome
  | warnMissing
  | warnInvalidPinUpdate
  | warnInvalidPinCreate
  | success
  | warnDuplicateName
  | warnUpdateBlocked
  | errorGeneric (msg : String)
deriving Repr, DecidableEq

/-- The exception classification of public_form.py lines 219-226. -/
def classifyException (msg : String) : Outcome :=
  if strContains msg "duplicate key value" || strContains msg "23505" then
    Outcome.warnDuplicateName
  else if strContains msg "violates row-level security" ||
      strContains msg "permission denied" || strContains msg "42501" then
    Outcome.warnUpdateBlocked
  else
    Outcome.errorGeneric msg

/-- Update payload (public_form.py lines 188-196): name, alliance, the
two powers, updated_at, and the seat color only when one was chosen. -/
def mkUpdatePayload (f : FormState) (t : Nat) : Payload :=
  { player_name := some (pyStrip f.player_name)
    current_alliance := some (some (pyStrip f.alliance))
    total_hero_power := some (some (Int.ofNat f.total_power))
    combat_power_1st_squad := some (some (Int.ofNat f.combat_power))
    expected_transfer_seat_color :=
      if f.seat_color = "" then none else some (some f.seat_color)
    created_at := none
    updated_at := some (some (now_iso t)) }

/-- Insert payload (public_form.py lines 205-214): as the update payload
plus created_at; now_iso is called twice, first for created_at (t1) and
then for updated_at (t2). -/
def mkInsertPayload (f : FormState) (t1 t2 : Nat) : Payload :=
  { player_name := some (pyStrip f.player_name)
    current_alliance := some (some (pyStrip f.alliance))
    total_hero_power := some (some (Int.ofNat f.total_power))
    combat_power_1st_squad := some (some (Int.ofNat f.combat_power))
    expected_transfer_seat_color :=
      if f.seat_color = "" then none else some (some f.seat_color)
    created_at := some (some (now_iso t1))
    updated_at := some (some (now_iso t2)) }

/-- Result of one run of the submit handler: the reported outcome, the
resulting store, and whether any store call was attempted. -/
structure SubmitResult where
  outcome : Outcome
  store : List Row
  storeCalled : Bool
deriving Repr, DecidableEq

/-- The submit handler of public_form.py lines 179-226.  t1 is the first
clock reading of the run and t2 the second (only the insert path reads
the clock twice). -/
def handle_submit (schema : SecretCol) (f : FormState) (t1 t2 : Nat)
    (store : List Row) : SubmitResult :=
  if f.player_name = "" ∨ f.alliance = "" then
    { outcome := Outcome.warnMissing, store := store, storeCalled := false }
  else if f.update_mode then
    if valid_pin f.pin_update then
      match try_update_with_pin (fun col =>
          updateWhereNameAndSecret schema (mkUpdatePayload f t1)
            (pyStrip f.player_name) col (pyStrip f.pin_update) store) with
      | Except.ok s => { outcome := Outcome.success, store := s, storeCalled := true }
      | Except.error e =>
          { outcome := classifyException e.msg, store := store, storeCalled := true }
    else
      { outcome := Outcome.warnInvalidPinUpdate, store := store, storeCalled := false }
  else
    if valid_pin f.pin_create then
      match try_insert_with_pin (fun col =>
          insertNew schema (mkInsertPayload f t1 t2) col (pyStrip f.pin_create) store) with
      | Except.ok s => { outcome := Outcome.success, store := s, storeCalled := true }
      | Except.error e =>
          { outcome := classifyException e.msg, store := store, storeCalled := true }
    else
      { outcome := Outcome.warnInvalidPinCreate, store := store, storeCalled := false }

/-- The conflict-resolving write of the store keyed on player_name
(PostgREST upsert with on_conflict player_name): inserts when no row has
the payload name, otherwise overwrites exactly the payload columns of
every row with that name. -/
def upsertByName (p : Payload) (store : List Row) : List Row :=
  if store.any (fun r => decide (r.player_name = p.player_name.getD "")) then
    store.map (fun r =>
      if r.player_name = p.player_name.getD "" then applyPayload p r else r)
  else
    store ++ [rowOfPayload p none]

/-- upsert (_dashboard.py lines 50-52): stamp updated_at with the current
instant, then issue the conflict-resolving write keyed on player_name. -/
def upsert (row : Payload) (t : Nat) (store : List Row) : List Row :=
  upsertByName { row with updated_at := some (some (now_iso t)) } store

/-- What the admin PIN-reset flow reports. -/
inductive ResetOutcome
  | errorPinMatch
  | errorPinRange
  | successReset (name : String)
  | errorUpdateFailed (msg : String)
deriving Repr, DecidableEq

/-- Store update of the single column edit_pin filtered by player_name
only (dashboard.py line 307): undefined-column failure when the schema
has the legacy column instead, otherwise the secret of every row with
that name is overwritten and nothing else changes. -/
def updateSecretByName (schema : SecretCol) (name : String) (pin : String)
    (store : List Row) : Except StoreError (List Row) :=
  if secretColName schema = "edit_pin" then
    Except.ok (store.map (fun r =>
      if r.player_name = name then { r with edit_secret := some pin } else r))
  else
    Except.error (undefinedColumnError "edit_pin")

/-- The admin PIN-reset handler of dashboard.py lines 299-311: reject
mismatched PINs, reject a PIN that is not 4-6 digits, otherwise update
the edit_pin column of the selected player; a store failure is reported
and nothing is retried. -/
def reset_pin (schema : SecretCol) (name pin1 pin2 : String)
    (store : List Row) : ResetOutcome × List Row :=
  if pin1 ≠ pin2 then
    (ResetOutcome.errorPinMatch, store)
  else if pyIsDigit pin1 = false ∨ ¬ (4 ≤ pin1.length ∧ pin1.length ≤ 6) then
    (ResetOutcome.errorPinRange, store)
  else
    match updateSecretByName schema name pin1 store with
    | Except.ok s => (ResetOutcome.successReset name, s)
    | Except.error e =>
        (ResetOutcome.errorUpdateFailed e.msg, store)

/-- Sample stored row used in the concrete checks below: player Kim,
secret 4821, created and updated at instant 10. -/
def kimRow : Row :=
  { player_name := "Kim", current_alliance := some "Nova"
    total_hero_power := some 12000000, combat_power_1st_squad := some 300
    expected_transfer_seat_color := some "Blue", edit_secret := some "4821"
    created_at := some 10, updated_at := some 10, submitted_ip := none }

/-- A permission-denial failure whose message mentions the column, as
Postgres emits for a column-privilege violation. -/
def permColError : StoreError :=
  { kind := ErrorKind.permissionDenied
    msg := "permission denied for column edit_pin of relation players" }

/-- Unpacked form of valid_pin. -/
theorem valid_pin_iff (pin : String) :
    valid_pin pin = true ↔
      pin.toList ≠ [] ∧ (∀ c ∈ pin.toList, pyIsDigitChar c = true) ∧
        4 ≤ pin.length ∧ pin.length ≤ 6 := by
  simp only [valid_pin, pyIsDigit, Bool.and_eq_true, decide_eq_true_eq, List.all_eq_true]
  tauto

/-- Unpacked form of matchesPinRegex. -/
theorem matchesPinRegex_iff (s : String) :
    matchesPinRegex s = true ↔
      (∀ c ∈ s.toList, 0x30 ≤ c.toNat ∧ c.toNat ≤ 0x39) ∧
        4 ≤ s.length ∧ s.length ≤ 6 := by
  simp only [matchesPinRegex, Bool.and_eq_true, decide_eq_true_eq, List.all_eq_true]

/-- An ASCII decimal digit is a Python digit. -/
theorem pyIsDigitChar_of_digit (c : Char) (h : 0x30 ≤ c.toNat ∧ c.toNat ≤ 0x39) :
    pyIsDigitChar c = true := by
  simp only [pyIsDigitChar, Bool.or_eq_true, Bool.and_eq_true, decide_eq_true_eq]
  omega

/-- Below codepoint 128 the only Python digits are the ASCII digits. -/
theorem pyIsDigitChar_ascii (c : Char) (hle : c.toNat ≤ 127)
    (h : pyIsDigitChar c = true) : 0x30 ≤ c.toNat ∧ c.toNat ≤ 0x39 := by
  simp only [pyIsDigitChar, Bool.or_eq_true, Bool.and_eq_true, decide_eq_true_eq] at h
  omega

/-- C1: the claim fails on the code.  With the correct player name Kim but
the wrong PIN 9999 the filtered update matches zero rows; the store
answers success with zero rows affected, try_update_with_pin returns
normally, and the handler reports the success outcome instead of an
ownership failure.  The second half of the claim does hold: the stored
row is unchanged. -/
theorem C1_wrong_pin_reports_success :
    (handle_submit SecretCol.editPin
      { player_name := "Kim", alliance := "Nova", total_power := 13000000,
        combat_power := 300, seat_color := "", update_mode := true,
        pin_update := "9999", pin_create := "" } 20 20 [kimRow]).outcome
      = Outcome.success ∧
    (handle_submit SecretCol.editPin
      { player_name := "Kim", alliance := "Nova", total_power := 13000000,
        combat_power := 300, seat_color := "", update_mode := true,
        pin_update := "9999", pin_create := "" } 20 20 [kimRow]).store
      = [kimRow] := by
  decide

/-- C2 counterexample: the four fullwidth digits ４８２１ pass Python
isdigit, so valid_pin accepts them, but they do not match the regular
expression over the ASCII digits 0-9. -/
theorem C2_counterexample :
    valid_pin "４８２１" = true ∧ matchesPinRegex "４８２１" = false := by
  decide

/-- C2 amended: every string matching the regular expression is accepted
by valid_pin, and on candidates consisting of ASCII characters only the
two agree exactly; acceptance and the regular expression diverge only on
non-ASCII Python digits. -/
theorem C2_valid_pin_regex (pin : String) :
    (matchesPinRegex pin = true → valid_pin pin = true) ∧
    ((∀ c ∈ pin.toList, c.toNat ≤ 127) →
      (valid_pin pin = true ↔ matchesPinRegex pin = true)) := by
  have hlen : pin.length = pin.toList.length := rfl
  have fwd : matchesPinRegex pin = true → valid_pin pin = true := by
    intro h
    rw [matchesPinRegex_iff] at h
    rw [valid_pin_iff]
    obtain ⟨hall, h4, h6⟩ := h
    have hne : pin.toList ≠ [] := by
      intro hnil
      rw [hlen, hnil] at h4
      simp at h4
    exact ⟨hne, fun c hc => pyIsDigitChar_of_digit c (hall c hc), h4, h6⟩
  refine ⟨fwd, fun hascii => ⟨?_, fwd⟩⟩
  intro h
  rw [valid_pin_iff] at h
  rw [matchesPinRegex_iff]
  obtain ⟨hne, hall, h4, h6⟩ := h
  exact ⟨fun c hc => pyIsDigitChar_ascii c (hascii c hc) (hall c hc), h4, h6⟩

/-- C2 witness: on the ASCII candidate 4821 the amended equivalence is
applied concretely. -/
theorem C2_valid_pin_regex_witness :
    valid_pin "4821" = true ↔ matchesPinRegex "4821" = true :=
  (C2_valid_pin_regex "4821").2 (by decide)

/-- C3 counterexample: a failure whose structured reason is a permission
denial, not a missing column, still triggers the legacy retry because
its message contains the substring column edit_pin; the second attempt
runs and its result is returned. -/
theorem C3_counterexample :
    try_update_with_pin (fun col =>
        if col = "edit_pin" then Except.error permColError else Except.ok [])
      = Except.ok [] ∧
    permColError.kind ≠ ErrorKind.undefinedColumn "edit_pin" :=
  ⟨rfl, by decide⟩

/-- C3 amended: the retry decision is purely the substring test
fallbackTriggered on the failure message: when the first attempt fails,
both write operations retry with the legacy column iff the message
contains edit_pin together with does not exist, or contains column
edit_pin, regardless of the structured failure reason; the canonical
undefined-column message passes the test and the duplicate-key message
does not. -/
theorem C3_retry_policy (op : String → Except StoreError (List Row))
    (e : StoreError) (hfirst : op "edit_pin" = Except.error e) :
    (fallbackTriggered e.msg = true → try_update_with_pin op = op "edit_code") ∧
    (fallbackTriggered e.msg = false → try_update_with_pin op = Except.error e) ∧
    (fallbackTriggered e.msg = true → try_insert_with_pin op = op "edit_code") ∧
    (fallbackTriggered e.msg = false → try_insert_with_pin op = Except.error e) ∧
    fallbackTriggered (undefinedColumnError "edit_pin").msg = true ∧
    fallbackTriggered duplicateKeyError.msg = false := by
  refine ⟨?_, ?_, ?_, ?_, by decide, by decide⟩
  · intro h
    unfold try_update_with_pin retryOnFallback
    rw [hfirst]
    simp [h]
  · intro h
    unfold try_update_with_pin retryOnFallback
    rw [hfirst]
    simp [h]
  · intro h
    unfold try_insert_with_pin retryOnFallback
    rw [hfirst]
    simp [h]
  · intro h
    unfold try_insert_with_pin retryOnFallback
    rw [hfirst]
    simp [h]

/-- C3 witness: a network failure without the trigger substrings
propagates unretried. -/
theorem C3_retry_policy_witness :
    fallbackTriggered "connection reset by peer" = false ∧
    try_update_with_pin
        (fun _ => Except.error
          { kind := ErrorKind.networkError, msg := "connection reset by peer" })
      = Except.error
          { kind := ErrorKind.networkError, msg := "connection reset by peer" } :=
  ⟨by decide,
    (C3_retry_policy
      (fun _ => Except.error
        { kind := ErrorKind.networkError, msg := "connection reset by peer" })
      { kind := ErrorKind.networkError, msg := "connection reset by peer" }
      rfl).2.1 (by decide)⟩

/-- C4 counterexample: the player name consisting of a single blank is
empty after trimming, yet the handler only tests the raw strings for
emptiness, so validation passes and an insert store call is attempted
(and reported as a success). -/
theorem C4_counterexample :
    (handle_submit SecretCol.editPin
      { player_name := " ", alliance := "Nova", total_power := 0,
        combat_power := 0, seat_color := "", update_mode := false,
        pin_update := "", pin_create := "4821" } 5 5 []).storeCalled = true ∧
    (handle_submit SecretCol.editPin
      { player_name := " ", alliance := "Nova", total_power := 0,
        combat_power := 0, seat_color := "", update_mode := false,
        pin_update := "", pin_create := "4821" } 5 5 []).outcome
      = Outcome.success := by
  decide

/-- C4 amended: with emptiness read on the raw untrimmed strings — when
the raw player name or alliance is the empty string, or the PIN of the
selected mode is malformed, the handler reports a validation warning,
attempts no store call, and leaves the store unchanged. -/
theorem C4_validation_gate (schema : SecretCol) (f : FormState) (t1 t2 : Nat)
    (store : List Row)
    (h : f.player_name = "" ∨ f.alliance = "" ∨
         (f.update_mode = true ∧ valid_pin f.pin_update = false) ∨
         (f.update_mode = false ∧ valid_pin f.pin_create = false)) :
    (handle_submit schema f t1 t2 store).storeCalled = false ∧
    (handle_submit schema f t1 t2 store).store = store ∧
    ((handle_submit schema f t1 t2 store).outcome = Outcome.warnMissing ∨
     (handle_submit schema f t1 t2 store).outcome = Outcome.warnInvalidPinUpdate ∨
     (handle_submit schema f t1 t2 store).outcome = Outcome.warnInvalidPinCreate) := by
  unfold handle_submit
  by_cases h1 : f.player_name = "" ∨ f.alliance = ""
  · simp [h1]
  · rw [if_neg h1]
    rcases h with h | h | ⟨hm, hp⟩ | ⟨hm, hp⟩
    · exact absurd (Or.inl h) h1
    · exact absurd (Or.inr h) h1
    · simp [hm, hp]
    · simp [hm, hp]

/-- C4 witness: the amended gate applied to the empty player name. -/
theorem C4_validation_gate_witness :
    (handle_submit SecretCol.editPin
      { player_name := "", alliance := "Nova", total_power := 0,
        combat_power := 0, seat_color := "", update_mode := false,
        pin_update := "", pin_create := "4821" } 0 0 []).storeCalled = false :=
  (C4_validation_gate SecretCol.editPin
    { player_name := "", alliance := "Nova", total_power := 0,
      combat_power := 0, seat_color := "", update_mode := false,
      pin_update := "", pin_create := "4821" } 0 0 [] (Or.inl rfl)).1

/-- Evaluation of the update branch of the submit handler: with a
non-empty raw name and alliance and a well-formed PIN, both schemas end
in the success outcome with exactly the rows matching name and secret
overwritten by the update payload. -/
theorem handle_submit_update_ok (schema : SecretCol) (f : FormState) (t1 t2 : Nat)
    (store : List Row) (h1 : ¬ (f.player_name = "" ∨ f.alliance = ""))
    (hm : f.update_mode = true) (hp : valid_pin f.pin_update = true) :
    handle_submit schema f t1 t2 store =
      { outcome := Outcome.success
        store := store.map (fun r =>
          if r.player_name = pyStrip f.player_name ∧
              r.edit_secret = some (pyStrip f.pin_update) then
            applyPayload (mkUpdatePayload f t1) r
          else r)
        storeCalled := true } := by
  have hfb : fallbackTriggered (undefinedColumnError "edit_pin").msg = true := by decide
  have hne : ¬ (("edit_pin" : String) = "edit_code") := by decide
  unfold handle_submit
  rw [if_neg h1, if_pos hm, if_pos hp]
  cases schema
  · simp [try_update_with_pin, retryOnFallback, updateWhereNameAndSecret, secretColName]
  · simp [try_update_with_pin, retryOnFallback, updateWhereNameAndSecret,
      secretColName, hfb, hne]

/-- Evaluation of the insert branch of the submit handler: with a
non-empty raw name and alliance and a well-formed PIN, both schemas end
either in the duplicate-name warning with the store untouched, or in the
success outcome with exactly one new row appended. -/
theorem handle_submit_insert_result (schema : SecretCol) (f : FormState) (t1 t2 : Nat)
    (store : List Row) (h1 : ¬ (f.player_name = "" ∨ f.alliance = ""))
    (hm : f.update_mode = false) (hp : valid_pin f.pin_create = true) :
    handle_submit schema f t1 t2 store =
      if store.any (fun r => decide (r.player_name = pyStrip f.player_name)) then
        { outcome := Outcome.warnDuplicateName, store := store, storeCalled := true }
      else
        { outcome := Outcome.success
          store := store ++
            [rowOfPayload (mkInsertPayload f t1 t2) (some (pyStrip f.pin_create))]
          storeCalled := true } := by
  have hfb : fallbackTriggered (undefinedColumnError "edit_pin").msg = true := by decide
  have hdf : fallbackTriggered duplicateKeyError.msg = false := by decide
  have hdm : classifyException duplicateKeyError.msg = Outcome.warnDuplicateName := by decide
  have hne : ¬ (("edit_pin" : String) = "edit_code") := by decide
  have hnm : (mkInsertPayload f t1 t2).player_name.getD "" = pyStrip f.player_name := rfl
  unfold handle_submit
  rw [if_neg h1, if_neg (by simp [hm]), if_pos hp]
  by_cases hdup : store.any (fun r => decide (r.player_name = pyStrip f.player_name)) = true
  · cases schema
    · simp [try_insert_with_pin, retryOnFallback, insertNew, secretColName,
        hnm, hdup, hdf, hdm]
    · simp [try_insert_with_pin, retryOnFallback, insertNew, secretColName,
        hnm, hdup, hdf, hdm, hfb, hne]
  · cases schema
    · simp [try_insert_with_pin, retryOnFallback, insertNew, secretColName, hnm, hdup]
    · simp [try_insert_with_pin, retryOnFallback, insertNew, secretColName,
        hnm, hdup, hfb, hne]

/-- C5: a successful update with matching name and PIN overwrites exactly
the payload attributes of the matching rows: name, alliance, the two
powers, updated_at (set to the current instant), and the seat color only
when one was chosen; the secret, created_at, submitted_ip — and the seat
color when none was chosen — keep their previous values, and rows not
matching the filter are untouched. -/
theorem C5_update_frame (schema : SecretCol) (f : FormState) (t1 t2 : Nat)
    (store : List Row) (h1 : ¬ (f.player_name = "" ∨ f.alliance = ""))
    (hm : f.update_mode = true) (hp : valid_pin f.pin_update = true) :
    (handle_submit schema f t1 t2 store).outcome = Outcome.success ∧
    (handle_submit schema f t1 t2 store).store = store.map (fun r =>
      if r.player_name = pyStrip f.player_name ∧
          r.edit_secret = some (pyStrip f.pin_update) then
        applyPayload (mkUpdatePayload f t1) r
      else r) ∧
    (∀ r : Row,
      (applyPayload (mkUpdatePayload f t1) r).edit_secret = r.edit_secret ∧
      (applyPayload (mkUpdatePayload f t1) r).created_at = r.created_at ∧
      (applyPayload (mkUpdatePayload f t1) r).submitted_ip = r.submitted_ip ∧
      (applyPayload (mkUpdatePayload f t1) r).player_name = pyStrip f.player_name ∧
      (applyPayload (mkUpdatePayload f t1) r).updated_at = some (now_iso t1) ∧
      (applyPayload (mkUpdatePayload f t1) r).current_alliance
        = some (pyStrip f.alliance) ∧
      (applyPayload (mkUpdatePayload f t1) r).total_hero_power
        = some (Int.ofNat f.total_power) ∧
      (applyPayload (mkUpdatePayload f t1) r).combat_power_1st_squad
        = some (Int.ofNat f.combat_power) ∧
      (f.seat_color = "" →
        (applyPayload (mkUpdatePayload f t1) r).expected_transfer_seat_color
          = r.expected_transfer_seat_color) ∧
      (f.seat_color ≠ "" →
        (applyPayload (mkUpdatePayload f t1) r).expected_transfer_seat_color
          = some f.seat_color)) := by
  rw [handle_submit_update_ok schema f t1 t2 store h1 hm hp]
  refine ⟨rfl, rfl, fun r => ⟨rfl, rfl, rfl, rfl, rfl, rfl, rfl, rfl, ?_, ?_⟩⟩
  · intro h
    simp [applyPayload, mkUpdatePayload, ov, h]
  · intro h
    simp [applyPayload, mkUpdatePayload, ov, h]

/-- C5 witness: concrete successful update of the row of Kim with the
correct PIN. -/
theorem C5_update_frame_witness :
    (handle_submit SecretCol.editPin
      { player_name := "Kim", alliance := "Miau", total_power := 13000000,
        combat_power := 300, seat_color := "", update_mode := true,
        pin_update := "4821", pin_create := "" } 20 20 [kimRow]).outcome
      = Outcome.success :=
  (C5_update_frame SecretCol.editPin
    { player_name := "Kim", alliance := "Miau", total_power := 13000000,
      combat_power := 300, seat_color := "", update_mode := true,
      pin_update := "4821", pin_create := "" } 20 20 [kimRow]
    (by decide) rfl (by decide)).1

/-- C6: an insert whose stripped player name already exists in the store
ends in the duplicate-name warning (the hint to switch to update mode)
and performs no write: the store is returned unchanged. -/
theorem C6_duplicate_insert (schema : SecretCol) (f : FormState) (t1 t2 : Nat)
    (store : List Row) (h1 : ¬ (f.player_name = "" ∨ f.alliance = ""))
    (hm : f.update_mode = false) (hp : valid_pin f.pin_create = true)
    (hdup : store.any (fun r => decide (r.player_name = pyStrip f.player_name)) = true) :
    (handle_submit schema f t1 t2 store).outcome = Outcome.warnDuplicateName ∧
    (handle_submit schema f t1 t2 store).store = store ∧
    (handle_submit schema f t1 t2 store).storeCalled = true := by
  rw [handle_submit_insert_result schema f t1 t2 store h1 hm hp, if_pos hdup]
  exact ⟨rfl, rfl, rfl⟩

/-- C6 witness: inserting Kim again while the row of Kim exists. -/
theorem C6_duplicate_insert_witness :
    (handle_submit SecretCol.editPin
      { player_name := "Kim", alliance := "Nova", total_power := 1,
        combat_power := 1, seat_color := "", update_mode := false,
        pin_update := "", pin_create := "123456" } 7 8 [kimRow]).outcome
      = Outcome.warnDuplicateName :=
  (C6_duplicate_insert SecretCol.editPin
    { player_name := "Kim", alliance := "Nova", total_power := 1,
      combat_power := 1, seat_color := "", update_mode := false,
      pin_update := "", pin_create := "123456" } 7 8 [kimRow]
    (by decide) rfl (by decide) (by decide)).1

/-- C7: an insert with a fresh stripped player name and a valid PIN
appends exactly one row; its secret is the stripped PIN, and its
created_at and updated_at are the two clock readings of the run — here
taken at the same instant t (the reading of the claim phrase same
instant within clock resolution), so the two timestamps are equal. -/
theorem C7_fresh_insert (schema : SecretCol) (f : FormState) (t : Nat)
    (store : List Row) (h1 : ¬ (f.player_name = "" ∨ f.alliance = ""))
    (hm : f.update_mode = false) (hp : valid_pin f.pin_create = true)
    (hfresh : store.any (fun r => decide (r.player_name = pyStrip f.player_name)) = false) :
    (handle_submit schema f t t store).outcome = Outcome.success ∧
    (handle_submit schema f t t store).store =
      store ++ [rowOfPayload (mkInsertPayload f t t) (some (pyStrip f.pin_create))] ∧
    (rowOfPayload (mkInsertPayload f t t) (some (pyStrip f.pin_create))).edit_secret
      = some (pyStrip f.pin_create) ∧
    (rowOfPayload (mkInsertPayload f t t) (some (pyStrip f.pin_create))).created_at
      = some (now_iso t) ∧
    (rowOfPayload (mkInsertPayload f t t) (some (pyStrip f.pin_create))).updated_at
      = some (now_iso t) ∧
    (rowOfPayload (mkInsertPayload f t t) (some (pyStrip f.pin_create))).created_at
      = (rowOfPayload (mkInsertPayload f t t) (some (pyStrip f.pin_create))).updated_at := by
  rw [handle_submit_insert_result schema f t t store h1 hm hp,
    if_neg (by simp [hfresh])]
  exact ⟨rfl, rfl, rfl, rfl, rfl, rfl⟩

/-- C7 witness: creating the row of Lee in an empty store. -/
theorem C7_fresh_insert_witness :
    (handle_submit SecretCol.editPin
      { player_name := "Lee", alliance := "Nova", total_power := 5,
        combat_power := 2, seat_color := "Pink", update_mode := false,
        pin_update := "", pin_create := "4821" } 9 9 []).outcome
      = Outcome.success :=
  (C7_fresh_insert SecretCol.editPin
    { player_name := "Lee", alliance := "Nova", total_power := 5,
      combat_power := 2, seat_color := "Pink", update_mode := false,
      pin_update := "", pin_create := "4821" } 9 []
    (by decide) rfl (by decide) (by decide)).1

/-- C8: the admin upsert is a single conflict-resolving write keyed only
on player_name — it appends a new row when no row carries the payload
name and otherwise overwrites exactly the payload columns of the rows
carrying it — the branch condition never consults any secret, every
overwritten row keeps its stored secret, a fresh row gets no secret, and
updated_at is stamped with the current instant on both paths. -/
theorem C8_upsert_effect (p : Payload) (t : Nat) (store : List Row) :
    upsert p t store =
      (if store.any (fun r => decide (r.player_name = p.player_name.getD "")) then
        store.map (fun r =>
          if r.player_name = p.player_name.getD "" then
            applyPayload { p with updated_at := some (some (now_iso t)) } r
          else r)
      else store ++ [rowOfPayload { p with updated_at := some (some (now_iso t)) } none]) ∧
    (∀ r : Row,
      (applyPayload { p with updated_at := some (some (now_iso t)) } r).updated_at
        = some (now_iso t) ∧
      (applyPayload { p with updated_at := some (some (now_iso t)) } r).edit_secret
        = r.edit_secret) ∧
    (rowOfPayload { p with updated_at := some (some (now_iso t)) } none).updated_at
      = some (now_iso t) ∧
    (rowOfPayload { p with updated_at := some (some (now_iso t)) } none).edit_secret
      = none :=
  ⟨rfl, fun _ => ⟨rfl, rfl⟩, rfl, rfl⟩

/-- C9: both payload builders of the public form always carry
total_hero_power and combat_power_1st_squad — present, non-null, and
non-negative, since the number inputs are floored at 0 and default to 0;
these are the only payloads handle_submit ever hands to the store. -/
theorem C9_power_fields_present (f : FormState) (t t1 t2 : Nat) :
    (mkUpdatePayload f t).total_hero_power = some (some (Int.ofNat f.total_power)) ∧
    (mkUpdatePayload f t).combat_power_1st_squad
      = some (some (Int.ofNat f.combat_power)) ∧
    (mkInsertPayload f t1 t2).total_hero_power
      = some (some (Int.ofNat f.total_power)) ∧
    (mkInsertPayload f t1 t2).combat_power_1st_squad
      = some (some (Int.ofNat f.combat_power)) ∧
    0 ≤ Int.ofNat f.total_power ∧ 0 ≤ Int.ofNat f.combat_power :=
  ⟨rfl, rfl, rfl, rfl, Int.ofNat_nonneg f.total_power, Int.ofNat_nonneg f.combat_power⟩

/-- C10: the confirmed admin PIN reset updates only the edit_pin column
filtered by player_name: on the current schema exactly the secret of the
rows carrying the selected name is replaced and every other column and
row is untouched; on the legacy schema the undefined-column failure is
reported and nothing is written — the reset never retries with the
legacy edit_code column. -/
theorem C10_admin_reset (schema : SecretCol) (name pin : String) (store : List Row)
    (hdig : pyIsDigit pin = true) (hlen : 4 ≤ pin.length ∧ pin.length ≤ 6) :
    reset_pin schema name pin pin store =
      (match schema with
       | SecretCol.editPin =>
          (ResetOutcome.successReset name,
            store.map (fun r =>
              if r.player_name = name then { r with edit_secret := some pin } else r))
       | SecretCol.editCode =>
          (ResetOutcome.errorUpdateFailed (undefinedColumnError "edit_pin").msg,
            store)) := by
  have h2 : ¬ (pyIsDigit pin = false ∨ ¬ (4 ≤ pin.length ∧ pin.length ≤ 6)) := by
    simp [hdig, hlen.1, hlen.2]
  have hne : ¬ (secretColName SecretCol.editCode = "edit_pin") := by decide
  unfold reset_pin
  rw [if_neg (by simp : ¬ pin ≠ pin), if_neg h2]
  cases schema
  · simp [updateSecretByName, secretColName]
  · simp [updateSecretByName, hne]

/-- C10 witness: resetting the PIN of Kim to 5555 on the current
schema. -/
theorem C10_admin_reset_witness :
    reset_pin SecretCol.editPin "Kim" "5555" "5555" [kimRow] =
      (ResetOutcome.successReset "Kim",
        [{ kimRow with edit_secret := some "5555" }]) :=
  (C10_admin_reset SecretCol.editPin "Kim" "5555" [kimRow]
    (by decide) (by decide)).trans (by decide)

end ImmerMiau
